import Mathlib

/-
Verification of the acquisition-optimization subsystem of the atlas
repository, shallowly embedded from
`src/atlas/acquisition_optimizers/pymoo_optimizer.py` and
`src/atlas/planners/gp/planner.py`.

Olympus parameter values are floats (continuous, discrete) or strings
(categorical); no floating-point arithmetic is performed by the embedded
code paths (only identity conversions and list indexing), so floats are
modelled as rationals.
-/

namespace Atlas

/-- Olympus-side value of a single parameter: a float for continuous and
discrete parameters, a string for categorical parameters. -/
inductive OlympVal where
  | num (x : ℚ)
  | str (s : String)
deriving DecidableEq, Repr

/-- Pymoo-side (population-backend) encoded value of a single parameter:
a float for a `Real` variable, an integer index for an `Integer` variable
(discrete parameters), a literal option string for a `Choice` variable
(categorical parameters). -/
inductive PymooVal where
  | real (x : ℚ)
  | int (i : ℕ)
  | choice (s : String)
deriving DecidableEq, Repr

/-- An olympus parameter-space entry.  `param.type` is one of
"continuous", "discrete", "categorical"; the `other` constructor covers
any unrecognized type tag (the `else: raise ValueError` branch of
`_set_pymoo_param_space`).  Discrete parameters carry both `low`/`high`
attributes and an ordered numeric option list, as in olympus. -/
inductive Param where
  | continuous (name : String) (low high : ℚ)
  | discrete (name : String) (low high : ℚ) (options : List ℚ)
  | categorical (name : String) (options : List String)
  | other (name : String) (ptype : String)
deriving DecidableEq, Repr

/-- True on the three parameter types handled by
`PymooGAOptimizer._set_pymoo_param_space`; false on the `ValueError`
branch. -/
def Param.recognized : Param → Bool
  | .other _ _ => false
  | _ => true

/-- Validity of an olympus value for a given parameter: continuous values
lie within the declared bounds, discrete values are one of the ordered
numeric options, categorical values are one of the option strings. -/
def validValB : Param → OlympVal → Bool
  | .continuous _ lo hi, .num x => decide (lo ≤ x ∧ x ≤ hi)
  | .discrete _ _ _ opts, .num x => decide (x ∈ opts)
  | .categorical _ opts, .str s => decide (s ∈ opts)
  | _, _ => false

/-- A raw olympus parameter vector is valid when it has one value per
parameter-space entry and each value is valid for its parameter. -/
def validPoint (space : List Param) (v : List OlympVal) : Bool :=
  (space.length == v.length) && (space.zip v).all (fun pw => validValB pw.1 pw.2)

/-- Index of the first occurrence of `x` in a list, mirroring Python
`list.index` (which raises when absent, hence `Option`). -/
def optIndex {α : Type} [DecidableEq α] (x : α) : List α → Option ℕ
  | [] => none
  | y :: ys => if y = x then some 0 else (optIndex x ys).map (fun n => n + 1)

/-- Population-backend encoding of one olympus value, as in
`gen_initial_population`: discrete values become the integer index of the
value in the ordered option list (`int(param.options.index(elem))`),
continuous values stay floats, categorical values stay literal strings. -/
def olympusToPymooVal : Param → OlympVal → Option PymooVal
  | .discrete _ _ _ opts, .num x => (optIndex x opts).map .int
  | .continuous _ _ _, .num x => some (.real x)
  | .categorical _ _, .str s => some (.choice s)
  | _, _ => none

/-- Decoding of one pymoo value back to olympus, as in the per-parameter
branches of `PymooProblemWrapper._pymoo_to_olympus`: a discrete index is
looked up in the ordered option list (`float(param.options[sample[elem]])`),
continuous floats pass through, categorical strings pass through
literally. -/
def pymooToOlympusVal : Param → PymooVal → Option OlympVal
  | .discrete _ _ _ opts, .int i => (opts[i]?).map .num
  | .continuous _ _ _, .real x => some (.num x)
  | .categorical _ _, .choice s => some (.str s)
  | _, _ => none

/-- Monadic map over `zip(sample, param_space)` as used by both
conversion directions; like Python `zip`, the traversal stops at the
shorter list, and any per-element failure propagates. -/
def zipMapM {α β γ : Type} (f : α → β → Option γ) : List α → List β → Option (List γ)
  | a :: as, b :: bs => (f a b).bind (fun c => (zipMapM f as bs).map (fun cs => c :: cs))
  | _, _ => some []

/-- Encoding of a full olympus sample into the pymoo mixed-variable
record, per `gen_initial_population`. -/
def olympusToPymoo (space : List Param) (sample : List OlympVal) : Option (List PymooVal) :=
  zipMapM (fun w p => olympusToPymooVal p w) sample space

/-- Decoding of a full pymoo sample into olympus representation, per
`PymooProblemWrapper._pymoo_to_olympus`. -/
def pymooToOlympus (space : List Param) (sample : List PymooVal) : Option (List OlympVal) :=
  zipMapM (fun x p => pymooToOlympusVal p x) sample space

theorem optIndex_getElem {α : Type} [DecidableEq α] (x : α) (l : List α) (h : x ∈ l) :
    ∃ i, optIndex x l = some i ∧ l[i]? = some x := by
  induction l with
  | nil => simp at h
  | cons y ys ih =>
    by_cases hyx : y = x
    · exact ⟨0, by simp [optIndex, hyx]⟩
    · have hx : x ∈ ys := by
        rcases List.mem_cons.mp h with h1 | h1
        · exact absurd h1.symm hyx
        · exact h1
      obtain ⟨i, hi, hget⟩ := ih hx
      exact ⟨i + 1, by simp [optIndex, hyx, hi], by simpa using hget⟩

theorem roundtrip_val (p : Param) (w : OlympVal) (h : validValB p w = true) :
    ∃ e, olympusToPymooVal p w = some e ∧ pymooToOlympusVal p e = some w := by
  cases p with
  | continuous n lo hi =>
    cases w with
    | num x => exact ⟨.real x, rfl, rfl⟩
    | str s => simp [validValB] at h
  | discrete n lo hi opts =>
    cases w with
    | num x =>
      have hx : x ∈ opts := by simpa [validValB] using h
      obtain ⟨i, hi, hget⟩ := optIndex_getElem x opts hx
      exact ⟨.int i, by simp [olympusToPymooVal, hi], by simp [pymooToOlympusVal, hget]⟩
    | str s => simp [validValB] at h
  | categorical n opts =>
    cases w with
    | num x => simp [validValB] at h
    | str s => exact ⟨.choice s, rfl, rfl⟩
  | other n t => simp [validValB] at h

end Atlas

/-- C7: for every valid parameter vector over a mixed
continuous/discrete/categorical space, decoding its population-backend
encoding (continuous as float, discrete as integer index into the ordered
option list, categorical as literal option string) via `_pymoo_to_olympus`
reproduces the vector exactly, and every decoded component lies in its
parameter's declared domain. -/
theorem c7_pymoo_roundtrip (space : List Atlas.Param) (v : List Atlas.OlympVal)
    (hv : Atlas.validPoint space v = true) :
    ∃ e, Atlas.olympusToPymoo space v = some e ∧
      Atlas.pymooToOlympus space e = some v ∧
      ∀ pw ∈ space.zip v, Atlas.validValB pw.1 pw.2 = true := by
  have hlen : space.length = v.length := by
    have := (Bool.and_eq_true _ _).mp hv
    simpa using this.1
  have hall : ∀ pw ∈ space.zip v, Atlas.validValB pw.1 pw.2 = true := by
    have := (Bool.and_eq_true _ _).mp hv
    simpa [List.all_eq_true] using this.2
  clear hv
  induction space generalizing v with
  | nil =>
    cases v with
    | nil => exact ⟨[], rfl, rfl, by simp⟩
    | cons w ws => simp at hlen
  | cons p ps ih =>
    cases v with
    | nil => simp at hlen
    | cons w ws =>
      have hw : Atlas.validValB p w = true := hall (p, w) (by simp)
      obtain ⟨e0, henc0, hdec0⟩ := Atlas.roundtrip_val p w hw
      have hlen2 : ps.length = ws.length := by simpa using hlen
      have hall2 : ∀ pw ∈ ps.zip ws, Atlas.validValB pw.1 pw.2 = true := by
        intro pw hpw
        exact hall pw (by simp [hpw])
      obtain ⟨es, hencs, hdecs, _⟩ := ih ws hlen2 hall2
      refine ⟨e0 :: es, ?_, ?_, hall⟩
      · simp only [Atlas.olympusToPymoo, Atlas.zipMapM] at hencs ⊢
        simp [henc0, hencs]
      · simp only [Atlas.pymooToOlympus, Atlas.zipMapM] at hdecs ⊢
        simp [hdec0, hdecs]

/-- Witness for C7 at a concrete mixed space and valid vector. -/
theorem c7_pymoo_roundtrip_witness :
    ∃ e, Atlas.olympusToPymoo
        [Atlas.Param.continuous ("temp") 0 1,
         Atlas.Param.discrete ("n") 1 3 [1, 2, 3],
         Atlas.Param.categorical ("cat") ["a", "b"]]
        [Atlas.OlympVal.num 1, Atlas.OlympVal.num 2, Atlas.OlympVal.str ("b")] = some e ∧
      Atlas.pymooToOlympus
        [Atlas.Param.continuous ("temp") 0 1,
         Atlas.Param.discrete ("n") 1 3 [1, 2, 3],
         Atlas.Param.categorical ("cat") ["a", "b"]] e =
        some [Atlas.OlympVal.num 1, Atlas.OlympVal.num 2, Atlas.OlympVal.str ("b")] ∧
      ∀ pw ∈ ([Atlas.Param.continuous ("temp") 0 1,
         Atlas.Param.discrete ("n") 1 3 [1, 2, 3],
         Atlas.Param.categorical ("cat") ["a", "b"]].zip
          [Atlas.OlympVal.num 1, Atlas.OlympVal.num 2, Atlas.OlympVal.str ("b")]),
        Atlas.validValB pw.1 pw.2 = true :=
  c7_pymoo_roundtrip _ _ (by decide)

namespace Atlas

/-- The selection loop of `PymooGAOptimizer._batch_sample_selector`: walk
the (already ranked) decoded final population in order; a candidate equal,
across all dimensions, to some previously-measured point is skipped,
otherwise it is appended to the batch; after each candidate the loop stops
as soon as the batch holds `batchSize` points.  The accumulator is kept
reversed and re-reversed on exit. -/
def batchSelectLoop {Pt : Type} [DecidableEq Pt] (batchSize : ℕ) (measured : List Pt) :
    List Pt → List Pt → List Pt
  | [], acc => acc.reverse
  | x :: xs, acc =>
    let acc2 := if x ∈ measured then acc else x :: acc
    if acc2.length = batchSize then acc2.reverse
    else batchSelectLoop batchSize measured xs acc2

/-- `PymooGAOptimizer._batch_sample_selector`: decode every individual of
the final population via `_pymoo_to_olympus`, then run the selection loop
against the previously-measured set, starting from an empty batch. -/
def batchSampleSelector (space : List Param) (batchSize : ℕ)
    (measured : List (List OlympVal)) (finalPop : List (List PymooVal)) :
    Option (List (List OlympVal)) :=
  (finalPop.mapM (pymooToOlympus space)).map
    (fun olympSamples => batchSelectLoop batchSize measured olympSamples [])

theorem batchSelectLoop_eq {Pt : Type} [DecidableEq Pt] (b : ℕ) (m : List Pt)
    (pop : List Pt) : ∀ acc : List Pt, acc.length < b →
    batchSelectLoop b m pop acc =
      acc.reverse ++ (pop.filter (fun x => decide (x ∉ m))).take (b - acc.length) := by
  induction pop with
  | nil => intro acc hacc; simp [batchSelectLoop]
  | cons x xs ih =>
    intro acc hacc
    by_cases hx : x ∈ m
    · have hne : acc.length ≠ b := Nat.ne_of_lt hacc
      simp only [batchSelectLoop, hx, if_true, hne, if_false]
      rw [ih acc hacc]
      simp [hx]
    · by_cases hfull : acc.length + 1 = b
      · simp only [batchSelectLoop, hx, if_false, List.length_cons, hfull, if_true]
        have hb : b - acc.length = 1 := by omega
        simp [hx, hb]
      · have hlt : (x :: acc).length < b := by
          simp only [List.length_cons]; omega
        simp only [batchSelectLoop, hx, if_false, List.length_cons, hfull, ite_false]
        rw [ih (x :: acc) hlt]
        have hb : b - acc.length = (b - (acc.length + 1)) + 1 := by omega
        simp [hx, hb, List.take_succ_cons, List.append_assoc]

end Atlas

/-- C2: given a decodable final population, `_batch_sample_selector`
returns exactly the first `batch_size` candidates, in ranked population
order with first occurrence winning and no secondary sort, among those not
equal to any previously-measured point; hence the batch length is at most
`batch_size`, and when the population is exhausted early the shorter batch
is returned without error. -/
theorem c2_batch_selector_filter_take (space : List Atlas.Param) (b : ℕ)
    (m : List (List Atlas.OlympVal)) (pop : List (List Atlas.PymooVal))
    (ol : List (List Atlas.OlympVal)) (hb : 1 ≤ b)
    (hdec : pop.mapM (Atlas.pymooToOlympus space) = some ol) :
    Atlas.batchSampleSelector space b m pop =
      some ((ol.filter (fun x => decide (x ∉ m))).take b) ∧
    ∀ batch, Atlas.batchSampleSelector space b m pop = some batch →
      batch.length ≤ b := by
  have hloop := Atlas.batchSelectLoop_eq b m ol [] (by simpa using hb)
  have hsel : Atlas.batchSampleSelector space b m pop =
      some ((ol.filter (fun x => decide (x ∉ m))).take b) := by
    unfold Atlas.batchSampleSelector
    rw [hdec]
    simp [hloop]
  refine ⟨hsel, ?_⟩
  intro batch hbatch
  rw [hsel] at hbatch
  have h2 : (ol.filter (fun x => decide (x ∉ m))).take b = batch := by
    simpa using hbatch
  subst h2
  exact List.length_take_le _ _

/-- Witness for C2 at a concrete population: two decodable candidates of
which the second is previously measured, batch size 1. -/
theorem c2_batch_selector_filter_take_witness :
    Atlas.batchSampleSelector [Atlas.Param.categorical ("c") ["a", "b"]] 1
        [[Atlas.OlympVal.str ("b")]]
        [[Atlas.PymooVal.choice ("a")], [Atlas.PymooVal.choice ("b")]] =
      some ((([[Atlas.OlympVal.str ("a")], [Atlas.OlympVal.str ("b")]] :
          List (List Atlas.OlympVal)).filter
            (fun x => decide (x ∉ [[Atlas.OlympVal.str ("b")]]))).take 1) ∧
    ∀ batch, Atlas.batchSampleSelector [Atlas.Param.categorical ("c") ["a", "b"]] 1
        [[Atlas.OlympVal.str ("b")]]
        [[Atlas.PymooVal.choice ("a")], [Atlas.PymooVal.choice ("b")]] = some batch →
      batch.length ≤ 1 :=
  c2_batch_selector_filter_take _ _ _ _ _ (by decide) (by decide)

/-- C1 counterexample: the claim "the batch contains no two equal points"
fails as stated.  `_batch_sample_selector` deduplicates only against the
previously-measured set, never within the batch itself: on a final
population holding the same (unmeasured) candidate twice with batch size
2, both copies are returned. -/
theorem c1_counterexample_duplicate_batch :
    Atlas.batchSampleSelector [Atlas.Param.categorical ("c") ["a", "b"]] 2 []
        [[Atlas.PymooVal.choice ("a")], [Atlas.PymooVal.choice ("a")]] =
      some [[Atlas.OlympVal.str ("a")], [Atlas.OlympVal.str ("a")]] ∧
    ¬ ([[Atlas.OlympVal.str ("a")], [Atlas.OlympVal.str ("a")]] :
        List (List Atlas.OlympVal)).Nodup := by
  constructor
  · decide
  · decide

/-- C1 amended: no returned point equals, with full equality across all
dimensions, any previously-measured point — unconditionally; and,
provided the final candidate population itself contains no two equal
(decoded) points, the returned batch contains no two equal points. -/
theorem c1_batch_no_duplicates_amended (space : List Atlas.Param) (b : ℕ)
    (m : List (List Atlas.OlympVal)) (pop : List (List Atlas.PymooVal))
    (ol batch : List (List Atlas.OlympVal)) (hb : 1 ≤ b)
    (hdec : pop.mapM (Atlas.pymooToOlympus space) = some ol)
    (hsel : Atlas.batchSampleSelector space b m pop = some batch) :
    (∀ x ∈ batch, x ∉ m) ∧ (ol.Nodup → batch.Nodup) := by
  have hloop := Atlas.batchSelectLoop_eq b m ol [] (by simpa using hb)
  have hsel2 : Atlas.batchSampleSelector space b m pop =
      some ((ol.filter (fun x => decide (x ∉ m))).take b) := by
    unfold Atlas.batchSampleSelector
    rw [hdec]
    simp [hloop]
  rw [hsel2] at hsel
  have hbatch : (ol.filter (fun x => decide (x ∉ m))).take b = batch := by
    simpa using hsel
  subst hbatch
  constructor
  · intro x hx
    have hxf : x ∈ ol.filter (fun y => decide (y ∉ m)) := List.mem_of_mem_take hx
    have := (List.mem_filter.mp hxf).2
    simpa using this
  · intro hnd
    exact hnd.sublist ((List.take_sublist _ _).trans (List.filter_sublist _))

/-- Witness for the amended C1 at a concrete population, measured set and
batch size. -/
theorem c1_batch_no_duplicates_amended_witness :
    (∀ x ∈ ([[Atlas.OlympVal.str ("a")]] : List (List Atlas.OlympVal)),
      x ∉ [[Atlas.OlympVal.str ("b")]]) ∧
    (([[Atlas.OlympVal.str ("a")], [Atlas.OlympVal.str ("b")]] :
        List (List Atlas.OlympVal)).Nodup →
      ([[Atlas.OlympVal.str ("a")]] : List (List Atlas.OlympVal)).Nodup) :=
  c1_batch_no_duplicates_amended [Atlas.Param.categorical ("c") ["a", "b"]] 1
    [[Atlas.OlympVal.str ("b")]]
    [[Atlas.PymooVal.choice ("a")], [Atlas.PymooVal.choice ("b")]]
    [[Atlas.OlympVal.str ("a")], [Atlas.OlympVal.str ("b")]]
    [[Atlas.OlympVal.str ("a")]]
    (by decide) (by decide) (by decide)

namespace Atlas

/-- Construction-time failures of `PymooGAOptimizer.__init__`: the FATAL
log for `batch_size >= pop_size`, and the `ValueError` raised by
`_set_pymoo_param_space` on an unrecognized parameter type. -/
inductive ConstructError where
  | fatalBatchSize
  | valueError
deriving DecidableEq, Repr

/-- Pymoo decision-variable declaration produced by
`_set_pymoo_param_space`. -/
inductive PymooVar where
  | RealVar (lo hi : ℚ)
  | IntegerVar (lo hi : ℤ)
  | ChoiceVar (options : List String)
deriving DecidableEq, Repr

/-- One loop iteration of `_set_pymoo_param_space`: the pymoo variable
declared for the parameter together with the values appended to the `xl`
and `xu` bound arrays; `none` on the `raise ValueError` branch.  Note the
bound arrays receive `param.low` and `param.high` for continuous and
discrete parameters, and `0` and `len(options) - 1` for categorical
ones. -/
def pymooSpaceEntry : Param → Option ((String × PymooVar) × ℚ × ℚ)
  | .continuous n lo hi => some ((n, .RealVar lo hi), lo, hi)
  | .discrete n lo hi opts => some ((n, .IntegerVar 0 ((opts.length : ℤ) - 1)), lo, hi)
  | .categorical n opts => some ((n, .ChoiceVar opts), 0, (opts.length : ℚ) - 1)
  | .other _ _ => none

/-- `PymooGAOptimizer._set_pymoo_param_space`: assemble the pymoo variable
dictionary and the `xl`/`xu` bound arrays in parameter order, failing on
the first unrecognized parameter type. -/
def setPymooParamSpace : List Param → Option (List (String × PymooVar) × List ℚ × List ℚ)
  | [] => some ([], [], [])
  | p :: ps =>
    (pymooSpaceEntry p).bind (fun e =>
      (setPymooParamSpace ps).map (fun r => (e.1 :: r.1, e.2.1 :: r.2.1, e.2.2 :: r.2.2)))

/-- `PymooGAOptimizer.__init__` up to backend setup: the batch-size check
(`if not self.batch_size < self.pop_size`) runs first, then
`_set_pymoo_param_space`.  Modelled from the spec: a FATAL log aborts
construction immediately ("reported immediately and aborts the optimize
call before any search work begins"); the atlas `Logger` lives outside the
embedded source files. -/
def pymooGAConstruct (batchSize popSize : ℕ) (space : List Param) :
    Except ConstructError Unit :=
  if ! (batchSize < popSize) then .error .fatalBatchSize
  else
    match setPymooParamSpace space with
    | none => .error .valueError
    | some _ => .ok ()

theorem pymooSpaceEntry_none_of_unrecognized (p : Param) (h : p.recognized = false) :
    pymooSpaceEntry p = none := by
  cases p <;> simp [Param.recognized] at h ⊢
  rfl

theorem setPymooParamSpace_none_of_unrecognized (space : List Param) (p : Param)
    (hp : p ∈ space) (h : p.recognized = false) :
    setPymooParamSpace space = none := by
  induction space with
  | nil => simp at hp
  | cons q qs ih =>
    rcases List.mem_cons.mp hp with h1 | h1
    · subst h1
      simp [setPymooParamSpace, pymooSpaceEntry_none_of_unrecognized p h]
    · cases hq : pymooSpaceEntry q with
      | none => simp [setPymooParamSpace, hq]
      | some e => simp [setPymooParamSpace, hq, ih h1]

end Atlas

/-- C3: constructing a `PymooGAOptimizer` with `batch_size >= pop_size`
fails immediately at construction with the fatal batch-size
misconfiguration, before any search work; with `batch_size < pop_size`
construction always gets past this check (any later failure is a
different error). -/
theorem c3_construction_batch_size_check (b p : ℕ) (space : List Atlas.Param) :
    (p ≤ b → Atlas.pymooGAConstruct b p space =
      Except.error Atlas.ConstructError.fatalBatchSize) ∧
    (b < p → Atlas.pymooGAConstruct b p space ≠
      Except.error Atlas.ConstructError.fatalBatchSize) := by
  constructor
  · intro hpb
    have hlt : ¬ (b < p) := by omega
    simp [Atlas.pymooGAConstruct, hlt]
  · intro hbp
    simp only [Atlas.pymooGAConstruct, hbp, Bool.not_eq_true]
    cases hs : Atlas.setPymooParamSpace space <;> simp [hbp]

/-- Witness for C3 at concrete batch and population sizes. -/
theorem c3_construction_batch_size_check_witness :
    Atlas.pymooGAConstruct 3 2 [] = Except.error Atlas.ConstructError.fatalBatchSize ∧
    Atlas.pymooGAConstruct 1 2 [] ≠ Except.error Atlas.ConstructError.fatalBatchSize :=
  ⟨(c3_construction_batch_size_check 3 2 []).1 (by decide),
   (c3_construction_batch_size_check 1 2 []).2 (by decide)⟩

namespace Atlas

/-- Acquisition types recognized by the `if`/`elif` chain of
`BoTorchPlanner._ask`. -/
def recognizedAcqTypes : List String := ["ei", "qei", "ucb", "lcb", "variance", "general"]

/-- Acquisition-optimizer backend kinds for which `BoTorchPlanner._ask`
assigns an optimizer. -/
def recognizedOptimizerKinds : List String := ["gradient", "genetic", "pymoo"]

/-- Outcome of the `_ask` acquisition-function and backend dispatch: the
FATAL log raised for an unrecognized acquisition type; the unbound-name
error raised at the `acquisition_optimizer.optimize()` call when no
dispatch branch assigned an optimizer (the chain has no `else`); or a
proposal obtained from the recorded number of backend `optimize()`
calls. -/
inductive AskOutcome where
  | fatalAcqType
  | nameErrorOptimizer
  | proposed (numOptimizeCalls : ℕ)
deriving DecidableEq, Repr

/-- The model-based branch of `BoTorchPlanner._ask` after surrogate
fitting: select the acquisition function (FATAL on an unrecognized type,
before any optimizer is built), then select the backend, then call
`optimize()` exactly once; an unrecognized backend kind leaves the
optimizer unbound and the `optimize()` call raises. -/
def askDispatch (acqType optKind : String) : AskOutcome :=
  if acqType ∈ recognizedAcqTypes then
    if optKind ∈ recognizedOptimizerKinds then .proposed 1
    else .nameErrorOptimizer
  else .fatalAcqType

/-- Number of search-backend `optimize()` invocations performed by an
`_ask` outcome; errors escape before any search work. -/
def askSearchWork : AskOutcome → ℕ
  | .proposed n => n
  | _ => 0

end Atlas

/-- C5: every fatal misconfiguration aborts before any search work.  An
unrecognized parameter type makes `_set_pymoo_param_space` raise, so the
optimizer construction errors out for every batch/population size; an
unrecognized acquisition type hits the FATAL log in `_ask`; an
unrecognized acquisition-optimizer backend kind errors at the
`optimize()` call site.  In each case no backend `optimize()` search is
performed. -/
theorem c5_fatal_misconfiguration (space : List Atlas.Param) (p : Atlas.Param)
    (b ps : ℕ) (acqBad acqGood kBad kAny : String)
    (hp : p ∈ space) (hrec : p.recognized = false)
    (hacq : acqBad ∉ Atlas.recognizedAcqTypes)
    (hgood : acqGood ∈ Atlas.recognizedAcqTypes)
    (hk : kBad ∉ Atlas.recognizedOptimizerKinds) :
    Atlas.setPymooParamSpace space = none ∧
    (∃ e, Atlas.pymooGAConstruct b ps space = Except.error e) ∧
    Atlas.askDispatch acqBad kAny = Atlas.AskOutcome.fatalAcqType ∧
    Atlas.askDispatch acqGood kBad = Atlas.AskOutcome.nameErrorOptimizer ∧
    Atlas.askSearchWork (Atlas.askDispatch acqBad kAny) = 0 ∧
    Atlas.askSearchWork (Atlas.askDispatch acqGood kBad) = 0 := by
  have hnone := Atlas.setPymooParamSpace_none_of_unrecognized space p hp hrec
  have hfatal : Atlas.askDispatch acqBad kAny = Atlas.AskOutcome.fatalAcqType := by
    simp [Atlas.askDispatch, hacq]
  have hname : Atlas.askDispatch acqGood kBad = Atlas.AskOutcome.nameErrorOptimizer := by
    simp [Atlas.askDispatch, hgood, hk]
  refine ⟨hnone, ?_, hfatal, hname, ?_, ?_⟩
  · by_cases hbp : b < ps
    · exact ⟨.valueError, by simp [Atlas.pymooGAConstruct, hbp, hnone]⟩
    · exact ⟨.fatalBatchSize, by simp [Atlas.pymooGAConstruct, hbp]⟩
  · rw [hfatal]; rfl
  · rw [hname]; rfl

/-- Witness for C5 at a concrete unrecognized parameter type, acquisition
type and backend kind. -/
theorem c5_fatal_misconfiguration_witness :
    Atlas.setPymooParamSpace
        [Atlas.Param.continuous ("x") 0 1, Atlas.Param.other ("y") ("fuzzy")] = none ∧
    (∃ e, Atlas.pymooGAConstruct 1 5
        [Atlas.Param.continuous ("x") 0 1, Atlas.Param.other ("y") ("fuzzy")] =
      Except.error e) ∧
    Atlas.askDispatch ("eii") ("pymoo") = Atlas.AskOutcome.fatalAcqType ∧
    Atlas.askDispatch ("ei") ("annealing") = Atlas.AskOutcome.nameErrorOptimizer ∧
    Atlas.askSearchWork (Atlas.askDispatch ("eii") ("pymoo")) = 0 ∧
    Atlas.askSearchWork (Atlas.askDispatch ("ei") ("annealing")) = 0 :=
  c5_fatal_misconfiguration _ (Atlas.Param.other ("y") ("fuzzy")) 1 5 _ _ _ _
    (by decide) (by decide) (by decide) (by decide) (by decide)

namespace Atlas

/-- Spec-side pymoo variable for one parameter, stated from the spec
sentence behind C8 for comparison with `setPymooParamSpace`: continuous
becomes a `Real` with bounds `(low, high)`, discrete an `Integer` with
bounds `(0, number of options - 1)`, categorical a `Choice` over the
literal option set.  The `other` case never arises under the
recognizedness hypothesis. -/
def specVarOfParam : Param → String × PymooVar
  | .continuous n lo hi => (n, .RealVar lo hi)
  | .discrete n _ _ opts => (n, .IntegerVar 0 ((opts.length : ℤ) - 1))
  | .categorical n opts => (n, .ChoiceVar opts)
  | .other n _ => (n, .ChoiceVar [])

/-- Spec-side lower-bound array entry for one parameter. -/
def specLowerOfParam : Param → ℚ
  | .continuous _ lo _ => lo
  | .discrete _ lo _ _ => lo
  | .categorical _ _ => 0
  | .other _ _ => 0

/-- Spec-side upper-bound array entry for one parameter. -/
def specUpperOfParam : Param → ℚ
  | .continuous _ _ hi => hi
  | .discrete _ _ hi _ => hi
  | .categorical _ opts => (opts.length : ℚ) - 1
  | .other _ _ => 0

end Atlas

/-- C8: on a space of recognized parameters, `_set_pymoo_param_space`
returns exactly the per-parameter encodings of the spec — continuous as
`Real(low, high)`, discrete as `Integer(0, len(options) - 1)`,
categorical as `Choice(options)` with no numeric embedding — and the
`xl`/`xu` bound arrays are assembled in parameter order. -/
theorem c8_pymoo_param_space_encoding (space : List Atlas.Param)
    (h : ∀ p ∈ space, Atlas.Param.recognized p = true) :
    Atlas.setPymooParamSpace space =
      some (space.map Atlas.specVarOfParam,
            space.map Atlas.specLowerOfParam,
            space.map Atlas.specUpperOfParam) := by
  induction space with
  | nil => rfl
  | cons p ps ih =>
    have hp : Atlas.Param.recognized p = true := h p (by simp)
    have hps := ih (fun q hq => h q (by simp [hq]))
    cases p with
    | continuous n lo hi =>
      simp [Atlas.setPymooParamSpace, Atlas.pymooSpaceEntry, hps,
        Atlas.specVarOfParam, Atlas.specLowerOfParam, Atlas.specUpperOfParam]
    | discrete n lo hi opts =>
      simp [Atlas.setPymooParamSpace, Atlas.pymooSpaceEntry, hps,
        Atlas.specVarOfParam, Atlas.specLowerOfParam, Atlas.specUpperOfParam]
    | categorical n opts =>
      simp [Atlas.setPymooParamSpace, Atlas.pymooSpaceEntry, hps,
        Atlas.specVarOfParam, Atlas.specLowerOfParam, Atlas.specUpperOfParam]
    | other n t => simp [Atlas.Param.recognized] at hp

/-- Witness for C8 at a concrete mixed parameter space. -/
theorem c8_pymoo_param_space_encoding_witness :
    Atlas.setPymooParamSpace
        [Atlas.Param.continuous ("x") 0 1,
         Atlas.Param.discrete ("d") 1 3 [1, 2, 3],
         Atlas.Param.categorical ("c") ["a", "b"]] =
      some ([Atlas.Param.continuous ("x") 0 1,
         Atlas.Param.discrete ("d") 1 3 [1, 2, 3],
         Atlas.Param.categorical ("c") ["a", "b"]].map Atlas.specVarOfParam,
        [Atlas.Param.continuous ("x") 0 1,
         Atlas.Param.discrete ("d") 1 3 [1, 2, 3],
         Atlas.Param.categorical ("c") ["a", "b"]].map Atlas.specLowerOfParam,
        [Atlas.Param.continuous ("x") 0 1,
         Atlas.Param.discrete ("d") 1 3 [1, 2, 3],
         Atlas.Param.categorical ("c") ["a", "b"]].map Atlas.specUpperOfParam) :=
  c8_pymoo_param_space_encoding _ (by decide)

namespace Atlas

/-- Modelled from the spec: the `is_empty` flag of the known-constraints
container ("a sequence of zero or more boolean predicates"; "If no known
constraints are registered, the evaluator reports no constraint").  The
container class itself lives outside the embedded source files; here the
constraints are carried as a plain list of predicates. -/
def kcIsEmpty {α : Type} (kcs : List (α → Bool)) : Bool := kcs.isEmpty

/-- `PymooProblemWrapper._known_constraints_wrapper`: for each sample the
boolean constraints are evaluated on the sample value array and combined
with `all` (logical AND); the pymoo margin is `-2` when every constraint
holds (feasible) and `2` otherwise (infeasible). -/
def knownConstraintsWrapper {α : Type} (kcs : List (α → Bool)) (X : List α) : List ℤ :=
  X.map (fun x => if kcs.all (fun kc => kc x) then -2 else 2)

/-- Number of inequality constraints declared by
`PymooProblemWrapper.__init__`: one when known constraints are present,
zero otherwise. -/
def pymooNConstr {α : Type} (kcs : List (α → Bool)) : ℕ :=
  if kcIsEmpty kcs then 0 else 1

/-- Output dictionary of `PymooProblemWrapper._evaluate`: the objective
vector `out['F']` and the constraint vector `out['G']`, the latter set
only when known constraints are present. -/
structure EvalOut where
  F : List ℚ
  G : Option (List ℤ)
deriving DecidableEq, Repr

/-- `PymooProblemWrapper._evaluate`: decode the candidate batch via
`_pymoo_to_olympus` (failure propagates), expand each decoded point to
its acquisition input (the external `param_vectors_to_expanded`, kept
abstract as `expand`), replicate it `batch_size` times along the batch
dimension, negate the acquisition value to obtain `out['F']`, and — only
when known constraints are present — set `out['G']` from
`_known_constraints_wrapper` applied to the pymoo-encoded samples. -/
def pymooEvaluate {E : Type} (space : List Param) (kcs : List (List PymooVal → Bool))
    (acqf : List E → ℚ) (expand : List OlympVal → E) (batchSize : ℕ)
    (X : List (List PymooVal)) : Option EvalOut :=
  (X.mapM (pymooToOlympus space)).map (fun Xol =>
    let F := Xol.map (fun xo => -(acqf (List.replicate batchSize (expand xo))))
    if kcIsEmpty kcs then ⟨F, none⟩
    else ⟨F, some (knownConstraintsWrapper kcs X)⟩)

end Atlas

/-- C4: for a non-empty constraint set, the margin computed by
`_known_constraints_wrapper` for a point is at most the negative
threshold `-2` exactly when every constraint predicate returns true on
the point's value array (constraints combine via logical AND), and is
strictly positive otherwise. -/
theorem c4_constraint_margin {α : Type} (kcs : List (α → Bool)) (X : List α)
    (x : α) (i : ℕ) (hne : kcs ≠ []) (hx : X[i]? = some x) :
    ∃ g : ℤ, (Atlas.knownConstraintsWrapper kcs X)[i]? = some g ∧
      ((g ≤ -2) ↔ kcs.all (fun kc => kc x) = true) ∧
      (kcs.all (fun kc => kc x) = false → 0 < g) := by
  refine ⟨if kcs.all (fun kc => kc x) then -2 else 2, ?_, ?_, ?_⟩
  · simp [Atlas.knownConstraintsWrapper, hx]
  · by_cases hall : kcs.all (fun kc => kc x) = true <;> simp [hall]
  · intro hall
    simp [hall]

/-- Witness for C4 at a concrete constraint list and sample batch. -/
theorem c4_constraint_margin_witness :
    ∃ g : ℤ, (Atlas.knownConstraintsWrapper
        [fun n : ℕ => n == 0] [0, 1])[0]? = some g ∧
      ((g ≤ -2) ↔ [fun n : ℕ => n == 0].all (fun kc => kc 0) = true) ∧
      ([fun n : ℕ => n == 0].all (fun kc => kc 0) = false → 0 < g) :=
  c4_constraint_margin [fun n : ℕ => n == 0] [0, 1] 0 0
    (List.cons_ne_nil _ _) rfl

/-- C6: whenever the candidate batch decodes, `_evaluate` sets `out['F']`
to the negation of the acquisition value of each candidate point
replicated `batch_size` times along the batch dimension — the backend
always minimizes the negated, batch-replicated acquisition score. -/
theorem c6_negated_replicated_objective {E : Type} (space : List Atlas.Param)
    (kcs : List (List Atlas.PymooVal → Bool)) (acqf : List E → ℚ)
    (expand : List Atlas.OlympVal → E) (b : ℕ)
    (X : List (List Atlas.PymooVal)) (Xol : List (List Atlas.OlympVal))
    (hdec : X.mapM (Atlas.pymooToOlympus space) = some Xol) :
    ∃ out, Atlas.pymooEvaluate space kcs acqf expand b X = some out ∧
      out.F = Xol.map (fun xo => -(acqf (List.replicate b (expand xo)))) := by
  unfold Atlas.pymooEvaluate
  rw [hdec]
  by_cases hkc : Atlas.kcIsEmpty kcs <;> simp [hkc]

/-- Witness for C6 at a concrete space, acquisition stub and batch. -/
theorem c6_negated_replicated_objective_witness :
    ∃ out, Atlas.pymooEvaluate [Atlas.Param.continuous ("x") 0 1] []
        (fun l : List ℚ => (l.length : ℚ)) (fun _ => 1) 3
        [[Atlas.PymooVal.real 0]] = some out ∧
      out.F = [[Atlas.OlympVal.num 0]].map
        (fun xo => -(((List.replicate 3 ((fun _ => (1 : ℚ)) xo)).length : ℚ))) :=
  c6_negated_replicated_objective _ _ _ _ _ _ _ (by decide)

/-- C9: if the known-constraint set is empty the pymoo problem is built
with zero constraints and `_evaluate` never sets `out['G']` (pure
unconstrained acquisition search); if it is non-empty the problem
declares exactly one inequality constraint and `out['G']` is set, from
`_known_constraints_wrapper`, on every evaluation. -/
theorem c9_constraint_declaration {E : Type} (space : List Atlas.Param)
    (kcs : List (List Atlas.PymooVal → Bool)) (acqf : List E → ℚ)
    (expand : List Atlas.OlympVal → E) (b : ℕ)
    (X : List (List Atlas.PymooVal)) (out : Atlas.EvalOut)
    (h : Atlas.pymooEvaluate space kcs acqf expand b X = some out) :
    (kcs = [] → Atlas.pymooNConstr kcs = 0 ∧ out.G = none) ∧
    (kcs ≠ [] → Atlas.pymooNConstr kcs = 1 ∧
      out.G = some (Atlas.knownConstraintsWrapper kcs X)) := by
  unfold Atlas.pymooEvaluate at h
  cases hX : X.mapM (Atlas.pymooToOlympus space) with
  | none => rw [hX] at h; simp at h
  | some Xol =>
    rw [hX, Option.map_some'] at h
    have h2 := (Option.some.inj h).symm
    constructor
    · intro hkc
      subst hkc
      refine ⟨rfl, ?_⟩
      rw [h2]
      simp [Atlas.kcIsEmpty]
    · intro hkc
      have hne : Atlas.kcIsEmpty kcs = false := by
        simpa [Atlas.kcIsEmpty, List.isEmpty_iff] using hkc
      refine ⟨by simp [Atlas.pymooNConstr, hne], ?_⟩
      rw [h2]
      simp [hne]

/-- Witness for C9 at a concrete constrained evaluation. -/
theorem c9_constraint_declaration_witness :
    (([fun _ : List Atlas.PymooVal => true] : List (List Atlas.PymooVal → Bool)) = [] →
      Atlas.pymooNConstr [fun _ : List Atlas.PymooVal => true] = 0 ∧
      (Atlas.EvalOut.mk [-1] (some [-2])).G = none) ∧
    (([fun _ : List Atlas.PymooVal => true] : List (List Atlas.PymooVal → Bool)) ≠ [] →
      Atlas.pymooNConstr [fun _ : List Atlas.PymooVal => true] = 1 ∧
      (Atlas.EvalOut.mk [-1] (some [-2])).G =
        some (Atlas.knownConstraintsWrapper [fun _ : List Atlas.PymooVal => true]
          [[Atlas.PymooVal.real 0]])) :=
  c9_constraint_declaration [Atlas.Param.continuous ("x") 0 1]
    [fun _ : List Atlas.PymooVal => true]
    (fun l : List ℚ => (l.length : ℚ)) (fun _ => 1) 1
    [[Atlas.PymooVal.real 0]] (Atlas.EvalOut.mk [-1] (some [-2])) (by decide)

namespace Atlas

/-- The acquisition-type resolution at the end of
`BoTorchPlanner.__init__`: when `general_parameters` is not `None` and the
requested acquisition type is not "general", the type is overridden to
"general" and a warning is logged (second component); otherwise the
requested type is kept and no warning is logged. -/
def botorchAcqTypeResolution (generalParameters : Option (List ℕ))
    (acquisitionType : String) : String × Bool :=
  match generalParameters with
  | none => (acquisitionType, false)
  | some _ =>
    if acquisitionType = "general" then (acquisitionType, false)
    else ("general", true)

end Atlas

/-- C10: with `general_parameters` set, the constructor always ends up
with acquisition type "general", logging a warning exactly when the
requested type was not already "general"; with `general_parameters` equal
to `None`, the requested acquisition type is kept unchanged and no
warning is logged. -/
theorem c10_general_parameters_override (gp : Option (List ℕ)) (acqType : String) :
    (∀ l, gp = some l →
      (Atlas.botorchAcqTypeResolution gp acqType).1 = "general" ∧
      ((Atlas.botorchAcqTypeResolution gp acqType).2 = true ↔ acqType ≠ "general")) ∧
    (gp = none → Atlas.botorchAcqTypeResolution gp acqType = (acqType, false)) := by
  constructor
  · intro l hl
    subst hl
    by_cases h : acqType = "general"
    · subst h
      simp [Atlas.botorchAcqTypeResolution]
    · simp [Atlas.botorchAcqTypeResolution, h]
  · intro hl
    subst hl
    rfl

/-- Witness for C10 at a concrete parameter list and acquisition types. -/
theorem c10_general_parameters_override_witness :
    ((Atlas.botorchAcqTypeResolution (some [0]) ("ei")).1 = "general" ∧
      ((Atlas.botorchAcqTypeResolution (some [0]) ("ei")).2 = true ↔ ("ei" : String) ≠ "general")) ∧
    Atlas.botorchAcqTypeResolution none ("ei") = (("ei" : String), false) :=
  ⟨(c10_general_parameters_override (some [0]) ("ei")).1 [0] rfl,
   (c10_general_parameters_override none ("ei")).2 rfl⟩
